import Mathlib

/-!
Verification of `scripts/analyze-load-test.py` (Party Puzzle Palooza load-test
analyzer).  The script loads a k6 results JSON document and an optional system
metrics CSV, reduces them to summary statistics, and renders a chart grid and a
Markdown report.  The Python dictionaries are embedded as association lists over
exact rationals, the pandas statistics calls as explicit list computations, and
the report writer as the ordered list of strings it writes.
-/

/-- First value stored under key `k`, mirroring a Python dict lookup
(`k in d` / `d[k]`); Python dict keys are unique, so the first match is the
match. -/
def lookupKey (d : List (String × α)) (k : String) : Option α :=
  (d.find? (fun p => p.1 == k)).map (·.2)

/-- Python `d.get(k, v)`: the stored value, or `v` when the key is missing. -/
def dictGet (d : List (String × α)) (k : String) (v : α) : α :=
  (lookupKey d k).getD v

/-- A k6 metrics document, shaped as the script consumes it: a top-level dict
whose `metrics` entry maps metric names to dicts of statistic name to numeric
value, and whose `state` entry maps `testRunDuration` / `maxVUs` to numbers
(spec section 3).  `metrics = none` / `state = none` mean the corresponding
top-level key is absent; `otherKeys` records any further top-level keys, which
matter only for Python dict truthiness in the `if not k6_data` check of
`analyze_performance`. -/
structure K6Data where
  metrics : Option (List (String × List (String × ℚ)))
  state : Option (List (String × ℚ))
  otherKeys : List String

/-- Python truthiness: `not k6_data` is true exactly when the top-level dict
has no keys at all. -/
def K6Data.isEmptyDoc (d : K6Data) : Bool :=
  d.metrics.isNone && d.state.isNone && d.otherKeys.isEmpty

/-- The `analysis['http_requests']` group built by `analyze_performance`. -/
structure HttpRequests where
  total : ℚ
  rate : ℚ
  p95 : ℚ
  p99 : ℚ
  failed_rate : ℚ

/-- The `analysis['websocket']` group built by `analyze_performance`. -/
structure Websocket where
  latency_p95 : ℚ
  messages_total : ℚ

/-- The `analysis['business_metrics']` group built by `analyze_performance`. -/
structure BusinessMetrics where
  room_creation_success : ℚ
  game_join_success : ℚ
  question_flag_success : ℚ

/-- The performance summary dictionary built by `analyze_performance`
(script lines 49-68). -/
structure PerfAnalysis where
  http_requests : HttpRequests
  websocket : Websocket
  business_metrics : BusinessMetrics
  test_duration : ℚ
  max_vus : ℚ

/-- The summary record `analyze_performance` builds from a (truthy) document:
each field is a chained `.get` with default `{}` / `0`, exactly as in script
lines 47-68. -/
def perfOf (d : K6Data) : PerfAnalysis :=
  let metrics := d.metrics.getD []
  { http_requests :=
      { total := dictGet (dictGet metrics "http_reqs" []) "count" 0
        rate := dictGet (dictGet metrics "http_reqs" []) "rate" 0
        p95 := dictGet (dictGet metrics "http_req_duration" []) "p(95)" 0
        p99 := dictGet (dictGet metrics "http_req_duration" []) "p(99)" 0
        failed_rate := dictGet (dictGet metrics "http_req_failed" []) "rate" 0 }
    websocket :=
      { latency_p95 := dictGet (dictGet metrics "ws_latency_ms" []) "p(95)" 0
        messages_total := dictGet (dictGet metrics "ws_messages_total" []) "count" 0 }
    business_metrics :=
      { room_creation_success := dictGet (dictGet metrics "room_creation_success" []) "rate" 0
        game_join_success := dictGet (dictGet metrics "game_join_success" []) "rate" 0
        question_flag_success := dictGet (dictGet metrics "question_flag_success" []) "rate" 0 }
    test_duration := dictGet (d.state.getD []) "testRunDuration" 0
    max_vus := dictGet (d.state.getD []) "maxVUs" 0 }

/-- `analyze_performance(k6_data)` (script lines 42-70): `None` stays `None`,
a Python-falsy (empty) document also yields `None` via `if not k6_data`,
and otherwise the summary record is built. -/
def analyze_performance (k6_data : Option K6Data) : Option PerfAnalysis :=
  match k6_data with
  | none => none
  | some d => if d.isEmptyDoc then none else some (perfOf d)

/-- One row of the system-metrics CSV as loaded by `load_system_metrics`:
fixed five-column schema, timestamp plus four numeric readings. -/
structure ResourceRow where
  timestamp : String
  cpu : ℚ
  memory : ℚ
  db_connections : ℚ
  redis_connections : ℚ

/-- The loaded system-metrics dataframe: an ordered sequence of rows. -/
abbrev SystemDF := List ResourceRow

/-- pandas `Series.mean()`: arithmetic mean of the column. -/
def seriesMean (xs : List ℚ) : ℚ :=
  xs.sum / (xs.length : ℚ)

/-- pandas `Series.max()`: maximum of the column (the empty case is unreachable
in the script, which checks `df.empty` first). -/
def seriesMax : List ℚ → ℚ
  | [] => 0
  | x :: xs => xs.foldl max x

/-- Insert into an ascending list, keeping it ascending. -/
def insertSorted (x : ℚ) : List ℚ → List ℚ
  | [] => [x]
  | y :: ys => if x ≤ y then x :: y :: ys else y :: insertSorted x ys

/-- Ascending sort of a column, as pandas quantile sorts its data. -/
def sortAsc (xs : List ℚ) : List ℚ :=
  xs.foldr insertSorted []

/-- pandas `Series.quantile(q)` with the default linear interpolation:
position `q*(n-1)` into the ascending data, interpolating between the
neighbouring order statistics (index clipped at `n-1`). -/
def seriesQuantile (xs : List ℚ) (q : ℚ) : ℚ :=
  let s := sortAsc xs
  let n := s.length
  let pos : ℚ := q * ((n : ℚ) - 1)
  let i : ℕ := ⌊pos⌋₊
  let lo := s.getD i 0
  let hi := s.getD (min (i + 1) (n - 1)) 0
  lo + (pos - (i : ℚ)) * (hi - lo)

/-- Reference linear-interpolation quantile, following the spec wording
(section 8): with `h = q*(n-1)`, the value is
`s[floor h] + (h - floor h) * (s[ceil h] - s[floor h])` over the sorted data. -/
def quantileSpecRef (xs : List ℚ) (q : ℚ) : ℚ :=
  let s := sortAsc xs
  let n := s.length
  let h : ℚ := q * ((n : ℚ) - 1)
  s.getD ⌊h⌋₊ 0 + (h - (⌊h⌋₊ : ℚ)) * (s.getD ⌈h⌉₊ 0 - s.getD ⌊h⌋₊ 0)

/-- The per-column `mean` / `max` / `p95` triple of `analyze_system_metrics`. -/
structure ResStat where
  mean : ℚ
  max : ℚ
  p95 : ℚ

/-- The system summary dictionary built by `analyze_system_metrics`
(script lines 77-98). -/
structure SysAnalysis where
  cpu : ResStat
  memory : ResStat
  database_connections : ResStat
  redis_connections : ResStat

/-- Per-column statistics: `mean()`, `max()`, `quantile(0.95)`. -/
def colStats (xs : List ℚ) : ResStat :=
  { mean := seriesMean xs
    max := seriesMax xs
    p95 := seriesQuantile xs 0.95 }

/-- The record `analyze_system_metrics` builds from a nonempty dataframe,
column by column. -/
def sysOf (rows : SystemDF) : SysAnalysis :=
  { cpu := colStats (rows.map (·.cpu))
    memory := colStats (rows.map (·.memory))
    database_connections := colStats (rows.map (·.db_connections))
    redis_connections := colStats (rows.map (·.redis_connections)) }

/-- `analyze_system_metrics(system_df)` (script lines 72-100):
`if system_df is None or system_df.empty: return None`, otherwise the
per-column statistics. -/
def analyze_system_metrics (system_df : Option SystemDF) : Option SysAnalysis :=
  match system_df with
  | none => none
  | some rows => if rows.isEmpty then none else some (sysOf rows)

/-- Which of the six chart panels `generate_graphs` (script lines 102-187)
actually draws: the HTTP-percentile bar chart needs a truthy document with a
`metrics` key containing `http_req_duration`; the four resource time series
need only `system_df is not None`; the business bar chart needs a truthy
document with a `metrics` key. -/
structure GraphPanels where
  http_percentiles : Bool
  cpu : Bool
  db_connections : Bool
  redis_connections : Bool
  memory : Bool
  business : Bool

/-- The panel-drawing conditions of `generate_graphs`, extracted from the
`if k6_data and 'metrics' in k6_data` / `if system_df is not None` guards. -/
def generate_graphs_panels (k6_data : Option K6Data) (system_df : Option SystemDF) :
    GraphPanels :=
  let hasMetricsKey : Bool :=
    match k6_data with
    | some d => !d.isEmptyDoc && d.metrics.isSome
    | none => false
  let metricsOf : List (String × List (String × ℚ)) :=
    match k6_data with
    | some d => d.metrics.getD []
    | none => []
  { http_percentiles := hasMetricsKey && (lookupKey metricsOf "http_req_duration").isSome
    cpu := system_df.isSome
    db_connections := system_df.isSome
    redis_connections := system_df.isSome
    memory := system_df.isSome
    business := hasMetricsKey }

/-- Round a rational to the nearest integer, ties to even, as Python float
formatting rounds. -/
def roundHalfEven (q : ℚ) : ℤ :=
  let f := ⌊q⌋
  let r := q - (f : ℚ)
  if r < 1/2 then f
  else if 1/2 < r then f + 1
  else if f % 2 = 0 then f else f + 1

/-- Decimal digits of `n`, left-padded with zeros to `width`. -/
def natDigitsPad (n : ℕ) (width : ℕ) : String :=
  let s := toString n
  String.mk (List.replicate (width - s.length) '0') ++ s

/-- Models a Python fixed-point format spec such as `:.2f` / `:.1f` / `:.0f`
over the exact rationals of this embedding: round to `prec` decimal places and
print with exactly `prec` fractional digits. -/
def fmtFixed (prec : ℕ) (q : ℚ) : String :=
  let scaled := roundHalfEven (q * ((10 : ℚ) ^ prec))
  let sign := if scaled < 0 then "-" else ""
  let a := scaled.natAbs
  if prec = 0 then sign ++ toString a
  else sign ++ toString (a / 10 ^ prec) ++ "." ++ natDigitsPad (a % 10 ^ prec) prec

/-- Models Python `:.2%`: multiply by 100, two decimal places, percent sign. -/
def fmtPercent2 (q : ℚ) : String :=
  fmtFixed 2 (q * 100) ++ "%"

/-- Group a reversed digit list in threes, inserting commas. -/
def commaGroupAux : List Char → List Char
  | a :: b :: c :: d :: rest => a :: b :: c :: ',' :: commaGroupAux (d :: rest)
  | l => l

/-- Insert thousands separators into a decimal digit string. -/
def commaGroup (s : String) : String :=
  String.mk (commaGroupAux s.data.reverse).reverse

/-- Models Python `:,` thousands-separator formatting for the count values of
the summary (k6 counts are integral); a non-integral rational is rendered with
its grouped integer part followed by two rounded decimal places. -/
def fmtComma (q : ℚ) : String :=
  let sign := if q < 0 then "-" else ""
  if q.den = 1 then sign ++ commaGroup (toString q.num.natAbs)
  else
    let a := (roundHalfEven (|q| * 100)).natAbs
    sign ++ commaGroup (toString (a / 100)) ++ "." ++ natDigitsPad (a % 100) 2

/-- Models Python `str()` on the integral `maxVUs` value of the summary; a
non-integral rational falls back to two fixed decimal places. -/
def pyStr (q : ℚ) : String :=
  if q.den = 1 then toString q.num else fmtFixed 2 q

/-- The Executive Summary block written for a truthy performance summary:
KPI lines then the three threshold pass/fail lines (script lines 209-234). -/
def perfKpiChunks (p : PerfAnalysis) : List String :=
  ["### Key Performance Indicators\n\n",
   "- **HTTP Response Time (p95):** " ++ fmtFixed 2 p.http_requests.p95 ++ "ms\n",
   "- **Error Rate:** " ++ fmtPercent2 p.http_requests.failed_rate ++ "\n",
   "- **WebSocket Latency (p95):** " ++ fmtFixed 2 p.websocket.latency_p95 ++ "ms\n",
   "- **Total Requests:** " ++ fmtComma p.http_requests.total ++ "\n",
   "- **Request Rate:** " ++ fmtFixed 2 p.http_requests.rate ++ " req/s\n",
   "- **Test Duration:** " ++ fmtFixed 1 (p.test_duration / 1000000000) ++ "s\n",
   "- **Max Virtual Users:** " ++ pyStr p.max_vus ++ "\n\n",
   "### Performance Assessment\n\n",
   (if p.http_requests.p95 < 300 then "✅ **HTTP Response Time:** Within acceptable limits\n"
    else "❌ **HTTP Response Time:** Exceeds 300ms threshold\n"),
   (if p.http_requests.failed_rate < 0.05 then "✅ **Error Rate:** Within acceptable limits\n"
    else "❌ **Error Rate:** Exceeds 5% threshold\n"),
   (if p.websocket.latency_p95 < 100 then "✅ **WebSocket Latency:** Within acceptable limits\n"
    else "❌ **WebSocket Latency:** Exceeds 100ms threshold\n")]

/-- The System Resource Analysis section written for a truthy resource summary
(script lines 237-253); note the script reports CPU, database and Redis
connections but not the memory column. -/
def sysSectionChunks (s : SysAnalysis) : List String :=
  ["\n## System Resource Analysis\n\n",
   "### CPU Usage\n",
   "- **Average:** " ++ fmtFixed 1 s.cpu.mean ++ "%\n",
   "- **Peak:** " ++ fmtFixed 1 s.cpu.max ++ "%\n",
   "- **95th Percentile:** " ++ fmtFixed 1 s.cpu.p95 ++ "%\n\n",
   "### Database Connections\n",
   "- **Average:** " ++ fmtFixed 1 s.database_connections.mean ++ "\n",
   "- **Peak:** " ++ fmtFixed 0 s.database_connections.max ++ "\n",
   "- **95th Percentile:** " ++ fmtFixed 1 s.database_connections.p95 ++ "\n\n",
   "### Redis Connections\n",
   "- **Average:** " ++ fmtFixed 1 s.redis_connections.mean ++ "\n",
   "- **Peak:** " ++ fmtFixed 0 s.redis_connections.max ++ "\n",
   "- **95th Percentile:** " ++ fmtFixed 1 s.redis_connections.p95 ++ "\n\n"]

/-- The performance-driven Recommendations bullet blocks (script lines
258-272), each emitted when its threshold is strictly exceeded. -/
def perfRecChunks (p : PerfAnalysis) : List String :=
  (if p.http_requests.p95 > 300 then
     ["- **Optimize HTTP endpoints** that exceed 300ms response time\n",
      "- **Implement caching** for frequently accessed data\n",
      "- **Review database queries** for optimization opportunities\n"]
   else [])
  ++ (if p.http_requests.failed_rate > 0.05 then
     ["- **Investigate error patterns** and implement error handling\n",
      "- **Review rate limiting** configuration\n",
      "- **Check external service dependencies**\n"]
   else [])
  ++ (if p.websocket.latency_p95 > 100 then
     ["- **Optimize WebSocket message processing**\n",
      "- **Review Redis pub/sub performance**\n",
      "- **Consider WebSocket connection pooling**\n"]
   else [])

/-- The resource-driven Recommendations bullet blocks (script lines 274-288). -/
def sysRecChunks (s : SysAnalysis) : List String :=
  (if s.cpu.p95 > 80 then
     ["- **Scale horizontally** by adding more API instances\n",
      "- **Optimize CPU-intensive operations**\n",
      "- **Consider async processing** for heavy operations\n"]
   else [])
  ++ (if s.database_connections.p95 > 80 then
     ["- **Increase database connection pool size**\n",
      "- **Implement connection pooling**\n",
      "- **Consider read replicas** for read-heavy operations\n"]
   else [])
  ++ (if s.redis_connections.p95 > 400 then
     ["- **Optimize Redis connection usage**\n",
      "- **Implement connection pooling** for Redis\n",
      "- **Consider Redis clustering** for scale\n"]
   else [])

/-- `generate_report` (script lines 189-297) as the ordered list of strings it
writes to the report file.  `t` is the formatted `datetime.now()` of the
Generated line, the only nondeterministic input reaching the file contents. -/
def generate_report_chunks (perf_analysis : Option PerfAnalysis)
    (sys_analysis : Option SysAnalysis) (t : String) : List String :=
  "# Party Puzzle Palooza Load Test Performance Report\n\n" ::
  ("**Generated:** " ++ t ++ "\n\n") ::
  "## Executive Summary\n\n" ::
  ((match perf_analysis with
    | some p => perfKpiChunks p
    | none => [])
   ++ (match sys_analysis with
       | some s => sysSectionChunks s
       | none => [])
   ++ ["## Recommendations\n\n"]
   ++ (match perf_analysis with
       | some p => perfRecChunks p
       | none => [])
   ++ (match sys_analysis with
       | some s => sysRecChunks s
       | none => [])
   ++ ["\n## Next Steps\n\n",
       "1. **Address critical performance issues** identified above\n",
       "2. **Implement recommended optimizations**\n",
       "3. **Re-run load tests** after optimizations\n",
       "4. **Monitor production performance** continuously\n",
       "5. **Set up automated performance testing** in CI/CD\n"])

/-- The full Markdown text of the report: the concatenation of the chunks. -/
def generate_report (perf_analysis : Option PerfAnalysis)
    (sys_analysis : Option SysAnalysis) (t : String) : String :=
  String.join (generate_report_chunks perf_analysis sys_analysis t)

/-- Outcome of opening and parsing the k6 results file, abstracting the file
system and JSON parser at the point where `load_k6_results` branches. -/
inductive K6LoadOutcome where
  | ok (d : K6Data)
  | fileNotFound
  | invalidJson

/-- `load_k6_results(results_file)` (script lines 16-27): the parsed document
on success; on `FileNotFoundError` or `json.JSONDecodeError` a diagnostic is
printed and `None` is returned.  The second component collects the printed
diagnostics. -/
def load_k6_results (results_file : String) (o : K6LoadOutcome) :
    Option K6Data × List String :=
  match o with
  | .ok d => (some d, [])
  | .fileNotFound => (none, ["❌ Results file not found: " ++ results_file])
  | .invalidJson => (none, ["❌ Invalid JSON in results file: " ++ results_file])

/-- The analyze-and-report tail of `main` (script lines 313-319): both
analyzers run on whatever the loaders produced and the report is generated
regardless. -/
def main_pipeline (k6_data : Option K6Data) (system_df : Option SystemDF)
    (t : String) : List String :=
  generate_report_chunks (analyze_performance k6_data)
    (analyze_system_metrics system_df) t

theorem foldl_max_mem (xs : List ℚ) : ∀ x : ℚ, xs.foldl max x ∈ x :: xs := by
  induction xs with
  | nil => intro x; simp
  | cons z zs ih =>
    intro x
    have h := ih (max x z)
    simp only [List.foldl_cons]
    rcases List.mem_cons.mp h with he | hm
    · rw [he]
      rcases max_choice x z with hx | hz
      · rw [hx]; exact List.mem_cons_self _ _
      · rw [hz]; exact List.mem_cons_of_mem _ (List.mem_cons_self _ _)
    · exact List.mem_cons_of_mem _ (List.mem_cons_of_mem _ hm)

theorem le_foldl_max (xs : List ℚ) : ∀ x y : ℚ, y ∈ x :: xs → y ≤ xs.foldl max x := by
  induction xs with
  | nil => intro x y h; simp at h; simp [h]
  | cons z zs ih =>
    intro x y h
    have hbase : max x z ≤ zs.foldl max (max x z) :=
      ih (max x z) (max x z) (List.mem_cons_self _ _)
    simp only [List.foldl_cons]
    rcases List.mem_cons.mp h with rfl | h2
    · exact le_trans (le_max_left _ _) hbase
    · rcases List.mem_cons.mp h2 with rfl | h3
      · exact le_trans (le_max_right _ _) hbase
      · exact ih (max x z) y (List.mem_cons_of_mem _ h3)

theorem seriesMax_mem (xs : List ℚ) (h : xs ≠ []) : seriesMax xs ∈ xs := by
  match xs with
  | [] => exact absurd rfl h
  | x :: rest => exact foldl_max_mem rest x

theorem le_seriesMax (xs : List ℚ) (y : ℚ) (hy : y ∈ xs) : y ≤ seriesMax xs := by
  match xs with
  | [] => simp at hy
  | x :: rest => exact le_foldl_max rest x y hy

theorem quantile_index_eq (s : List ℚ) (h : ℚ) (hge0 : 0 ≤ h)
    (hle : h ≤ (s.length : ℚ) - 1) (hc : ((⌊h⌋₊ : ℚ)) ≠ h) :
    min (⌊h⌋₊ + 1) (s.length - 1) = ⌈h⌉₊ := by
  have hlen : 1 ≤ s.length := by
    rcases Nat.eq_zero_or_pos s.length with h0 | h1
    · exfalso; rw [h0] at hle; push_cast at hle; linarith
    · exact h1
  have hfl : (⌊h⌋₊ : ℚ) ≤ h := Nat.floor_le hge0
  have hltm : h < (s.length : ℚ) - 1 := by
    rcases lt_or_eq_of_le hle with hlt | heq
    · exact hlt
    · exfalso
      apply hc
      have hcast : ((s.length - 1 : ℕ) : ℚ) = (s.length : ℚ) - 1 := by
        push_cast [hlen]; ring
      rw [heq, ← hcast, Nat.floor_natCast, hcast]
  have hceil : ⌈h⌉₊ = ⌊h⌋₊ + 1 := by
    apply le_antisymm
    · apply Nat.ceil_le.mpr
      push_cast
      exact le_of_lt (Nat.lt_floor_add_one h)
    · exact Nat.lt_ceil.mpr (lt_of_le_of_ne hfl hc)
  have hidx : ⌊h⌋₊ + 1 ≤ s.length - 1 := by
    have hq : (⌊h⌋₊ : ℚ) < ((s.length - 1 : ℕ) : ℚ) := by
      push_cast [hlen]
      linarith
    exact Nat.cast_lt.mp hq
  rw [hceil, min_eq_left hidx]

theorem quantile_formula_eq (s : List ℚ) (h : ℚ) (hge0 : 0 ≤ h)
    (hle : h ≤ (s.length : ℚ) - 1) :
    s.getD ⌊h⌋₊ 0 + (h - (⌊h⌋₊ : ℚ))
        * (s.getD (min (⌊h⌋₊ + 1) (s.length - 1)) 0 - s.getD ⌊h⌋₊ 0)
      = s.getD ⌊h⌋₊ 0 + (h - (⌊h⌋₊ : ℚ)) * (s.getD ⌈h⌉₊ 0 - s.getD ⌊h⌋₊ 0) := by
  by_cases hc : ((⌊h⌋₊ : ℚ)) = h
  · have hz : h - (⌊h⌋₊ : ℚ) = 0 := by rw [hc]; ring
    rw [hz, zero_mul, zero_mul]
  · rw [quantile_index_eq s h hge0 hle hc]

theorem seriesQuantile_eq_ref (xs : List ℚ) (q : ℚ) (h0 : 0 ≤ q) (h1 : q ≤ 1) :
    seriesQuantile xs q = quantileSpecRef xs q := by
  simp only [seriesQuantile, quantileSpecRef]
  by_cases he : sortAsc xs = []
  · simp [he]
  · have hlen : 0 < (sortAsc xs).length := List.length_pos.mpr he
    have h1q : (1 : ℚ) ≤ ((sortAsc xs).length : ℚ) := by exact_mod_cast hlen
    apply quantile_formula_eq
    · exact mul_nonneg h0 (by linarith)
    · nlinarith [mul_nonneg (sub_nonneg.mpr h1)
        (by linarith : (0 : ℚ) ≤ ((sortAsc xs).length : ℚ) - 1)]

theorem chunk_head_ne (pre mid suf c : String) (x : Char)
    (h1 : pre.data.head? = some x) (h2 : c.data.head? ≠ some x) :
    c ≠ pre ++ mid ++ suf := by
  intro e
  apply h2
  rw [e]
  show ((pre ++ mid) ++ suf).data.head? = some x
  rw [String.data_append, String.data_append, List.head?_append, List.head?_append, h1]
  rfl

theorem ne_ite (c : Prop) [Decidable c] (x a b : String) (h1 : x ≠ a) (h2 : x ≠ b) :
    x ≠ if c then a else b := by
  by_cases hc : c
  · simp [hc]; exact h1
  · simp [hc]; exact h2

theorem mem_ite_nil (x : α) (c : Prop) [Decidable c] (l : List α)
    (h : x ∈ if c then l else []) : x ∈ l := by
  by_cases hc : c
  · simpa [hc] using h
  · simp [hc] at h

/-- A document whose only top-level content is a non-target metric: truthy, yet
every target metric/statistic lookup misses. -/
def docOnlyOther : K6Data :=
  { metrics := some [("iterations", [("count", 100)])]
    state := none
    otherKeys := [] }

/-- The empty JSON document: present (loaded successfully) but Python-falsy. -/
def emptyK6Doc : K6Data :=
  { metrics := none, state := none, otherKeys := [] }

/-- A document carrying every statistic `analyze_performance` extracts. -/
def docAllKeys : K6Data :=
  { metrics := some
      [("http_reqs", [("count", 1000), ("rate", 50)]),
       ("http_req_duration", [("p(95)", 250), ("p(99)", 400)]),
       ("http_req_failed", [("rate", 2)]),
       ("ws_latency_ms", [("p(95)", 80)]),
       ("ws_messages_total", [("count", 500)]),
       ("room_creation_success", [("rate", 1)]),
       ("game_join_success", [("rate", 3)]),
       ("question_flag_success", [("rate", 4)])]
    state := some [("testRunDuration", 60000000000), ("maxVUs", 100)]
    otherKeys := [] }

/-- C1: on a (truthy) metrics document, `analyze_performance` never fails, and
whenever a target metric name or statistic key is missing the corresponding
summary field is 0. -/
theorem analyze_performance_missing_keys_default_zero (d : K6Data)
    (h : d.isEmptyDoc = false) :
    analyze_performance (some d) = some (perfOf d) ∧
    (lookupKey (dictGet (d.metrics.getD []) "http_reqs" []) "count" = none →
      (perfOf d).http_requests.total = 0) ∧
    (lookupKey (dictGet (d.metrics.getD []) "http_reqs" []) "rate" = none →
      (perfOf d).http_requests.rate = 0) ∧
    (lookupKey (dictGet (d.metrics.getD []) "http_req_duration" []) "p(95)" = none →
      (perfOf d).http_requests.p95 = 0) ∧
    (lookupKey (dictGet (d.metrics.getD []) "http_req_duration" []) "p(99)" = none →
      (perfOf d).http_requests.p99 = 0) ∧
    (lookupKey (dictGet (d.metrics.getD []) "http_req_failed" []) "rate" = none →
      (perfOf d).http_requests.failed_rate = 0) ∧
    (lookupKey (dictGet (d.metrics.getD []) "ws_latency_ms" []) "p(95)" = none →
      (perfOf d).websocket.latency_p95 = 0) ∧
    (lookupKey (dictGet (d.metrics.getD []) "ws_messages_total" []) "count" = none →
      (perfOf d).websocket.messages_total = 0) ∧
    (lookupKey (dictGet (d.metrics.getD []) "room_creation_success" []) "rate" = none →
      (perfOf d).business_metrics.room_creation_success = 0) ∧
    (lookupKey (dictGet (d.metrics.getD []) "game_join_success" []) "rate" = none →
      (perfOf d).business_metrics.game_join_success = 0) ∧
    (lookupKey (dictGet (d.metrics.getD []) "question_flag_success" []) "rate" = none →
      (perfOf d).business_metrics.question_flag_success = 0) ∧
    (lookupKey (d.state.getD []) "testRunDuration" = none →
      (perfOf d).test_duration = 0) ∧
    (lookupKey (d.state.getD []) "maxVUs" = none →
      (perfOf d).max_vus = 0) := by
  refine ⟨by simp [analyze_performance, h], ?_, ?_, ?_, ?_, ?_, ?_, ?_, ?_, ?_, ?_, ?_, ?_⟩ <;>
    (intro hm; try simp only [dictGet] at hm
     simp [perfOf, dictGet, hm])

/-- Witness for C1 at a concrete truthy document missing every target key. -/
theorem analyze_performance_missing_keys_default_zero_witness :
    analyze_performance (some docOnlyOther) = some (perfOf docOnlyOther) ∧
    (perfOf docOnlyOther).http_requests.total = 0 ∧
    (perfOf docOnlyOther).http_requests.rate = 0 ∧
    (perfOf docOnlyOther).http_requests.p95 = 0 ∧
    (perfOf docOnlyOther).http_requests.p99 = 0 ∧
    (perfOf docOnlyOther).http_requests.failed_rate = 0 ∧
    (perfOf docOnlyOther).websocket.latency_p95 = 0 ∧
    (perfOf docOnlyOther).websocket.messages_total = 0 ∧
    (perfOf docOnlyOther).business_metrics.room_creation_success = 0 ∧
    (perfOf docOnlyOther).business_metrics.game_join_success = 0 ∧
    (perfOf docOnlyOther).business_metrics.question_flag_success = 0 ∧
    (perfOf docOnlyOther).test_duration = 0 ∧
    (perfOf docOnlyOther).max_vus = 0 := by
  obtain ⟨h1, h2, h3, h4, h5, h6, h7, h8, h9, h10, h11, h12, h13⟩ :=
    analyze_performance_missing_keys_default_zero docOnlyOther (by decide)
  exact ⟨h1, h2 (by decide), h3 (by decide), h4 (by decide), h5 (by decide),
    h6 (by decide), h7 (by decide), h8 (by decide), h9 (by decide),
    h10 (by decide), h11 (by decide), h12 (by decide), h13 (by decide)⟩

/-- C2 counterexample: the empty document is present (`some`), not an absent
load result, yet `analyze_performance` returns an absent summary for it, so
absence of the result does not imply absence of the document. -/
theorem analyze_performance_empty_doc_counterexample :
    (some emptyK6Doc : Option K6Data) ≠ none ∧
    analyze_performance (some emptyK6Doc) = none :=
  ⟨Option.some_ne_none _, rfl⟩

/-- C2 (amended): `analyze_performance` returns an absent result exactly when
the document is absent or Python-falsy (the empty document); every present
nonempty document yields a present summary. -/
theorem analyze_performance_none_iff (k6_data : Option K6Data) :
    analyze_performance k6_data = none ↔
      k6_data = none ∨ ∃ d, k6_data = some d ∧ d.isEmptyDoc = true := by
  cases k6_data with
  | none => simp [analyze_performance]
  | some d =>
    cases hd : d.isEmptyDoc with
    | true => simp [analyze_performance, hd]
    | false => simp [analyze_performance, hd]

/-- Witness for C2 (amended) at a concrete present nonempty document. -/
theorem analyze_performance_none_iff_witness :
    analyze_performance (some docOnlyOther) = none ↔
      (some docOnlyOther : Option K6Data) = none ∨
        ∃ d, (some docOnlyOther : Option K6Data) = some d ∧ d.isEmptyDoc = true :=
  analyze_performance_none_iff (some docOnlyOther)

/-- C3: on a (truthy) document, every summary field whose metric and statistic
keys are present is the exact stored value, with no transformation applied. -/
theorem analyze_performance_pass_through (d : K6Data) (h : d.isEmptyDoc = false) :
    analyze_performance (some d) = some (perfOf d) ∧
    (∀ v, lookupKey (dictGet (d.metrics.getD []) "http_reqs" []) "count" = some v →
      (perfOf d).http_requests.total = v) ∧
    (∀ v, lookupKey (dictGet (d.metrics.getD []) "http_reqs" []) "rate" = some v →
      (perfOf d).http_requests.rate = v) ∧
    (∀ v, lookupKey (dictGet (d.metrics.getD []) "http_req_duration" []) "p(95)" = some v →
      (perfOf d).http_requests.p95 = v) ∧
    (∀ v, lookupKey (dictGet (d.metrics.getD []) "http_req_duration" []) "p(99)" = some v →
      (perfOf d).http_requests.p99 = v) ∧
    (∀ v, lookupKey (dictGet (d.metrics.getD []) "http_req_failed" []) "rate" = some v →
      (perfOf d).http_requests.failed_rate = v) ∧
    (∀ v, lookupKey (dictGet (d.metrics.getD []) "ws_latency_ms" []) "p(95)" = some v →
      (perfOf d).websocket.latency_p95 = v) ∧
    (∀ v, lookupKey (dictGet (d.metrics.getD []) "ws_messages_total" []) "count" = some v →
      (perfOf d).websocket.messages_total = v) ∧
    (∀ v, lookupKey (dictGet (d.metrics.getD []) "room_creation_success" []) "rate" = some v →
      (perfOf d).business_metrics.room_creation_success = v) ∧
    (∀ v, lookupKey (dictGet (d.metrics.getD []) "game_join_success" []) "rate" = some v →
      (perfOf d).business_metrics.game_join_success = v) ∧
    (∀ v, lookupKey (dictGet (d.metrics.getD []) "question_flag_success" []) "rate" = some v →
      (perfOf d).business_metrics.question_flag_success = v) ∧
    (∀ v, lookupKey (d.state.getD []) "testRunDuration" = some v →
      (perfOf d).test_duration = v) ∧
    (∀ v, lookupKey (d.state.getD []) "maxVUs" = some v →
      (perfOf d).max_vus = v) := by
  refine ⟨by simp [analyze_performance, h], ?_, ?_, ?_, ?_, ?_, ?_, ?_, ?_, ?_, ?_, ?_, ?_⟩ <;>
    (intro v hm; try simp only [dictGet] at hm
     simp [perfOf, dictGet, hm])

/-- Witness for C3 at a concrete document carrying all target keys, e.g. a
stored `http_req_duration.p(95)` of 250 surfaces as summary HTTP p95 = 250. -/
theorem analyze_performance_pass_through_witness :
    analyze_performance (some docAllKeys) = some (perfOf docAllKeys) ∧
    (perfOf docAllKeys).http_requests.total = 1000 ∧
    (perfOf docAllKeys).http_requests.rate = 50 ∧
    (perfOf docAllKeys).http_requests.p95 = 250 ∧
    (perfOf docAllKeys).http_requests.p99 = 400 ∧
    (perfOf docAllKeys).http_requests.failed_rate = 2 ∧
    (perfOf docAllKeys).websocket.latency_p95 = 80 ∧
    (perfOf docAllKeys).websocket.messages_total = 500 ∧
    (perfOf docAllKeys).business_metrics.room_creation_success = 1 ∧
    (perfOf docAllKeys).business_metrics.game_join_success = 3 ∧
    (perfOf docAllKeys).business_metrics.question_flag_success = 4 ∧
    (perfOf docAllKeys).test_duration = 60000000000 ∧
    (perfOf docAllKeys).max_vus = 100 := by
  obtain ⟨h1, h2, h3, h4, h5, h6, h7, h8, h9, h10, h11, h12, h13⟩ :=
    analyze_performance_pass_through docAllKeys (by decide)
  exact ⟨h1, h2 1000 (by decide), h3 50 (by decide), h4 250 (by decide),
    h5 400 (by decide), h6 2 (by decide), h7 80 (by decide), h8 500 (by decide),
    h9 1 (by decide), h10 3 (by decide), h11 4 (by decide),
    h12 60000000000 (by decide), h13 100 (by decide)⟩

theorem colStats_spec (xs : List ℚ) (h : xs ≠ []) :
    (colStats xs).mean = xs.sum / (xs.length : ℚ) ∧
    (colStats xs).max ∈ xs ∧
    (∀ y ∈ xs, y ≤ (colStats xs).max) ∧
    (colStats xs).p95 = quantileSpecRef xs 0.95 :=
  ⟨rfl, seriesMax_mem xs h, fun y hy => le_seriesMax xs y hy,
    seriesQuantile_eq_ref xs 0.95 (by norm_num) (by norm_num)⟩

/-- A two-row resource series used as concrete witness input. -/
def sampleRows : SystemDF :=
  [{ timestamp := "2024-01-01 10:00:00", cpu := 10, memory := 1000,
     db_connections := 5, redis_connections := 7 },
   { timestamp := "2024-01-01 10:00:05", cpu := 30, memory := 1200,
     db_connections := 9, redis_connections := 3 }]

/-- C5: on a nonempty resource series the summary is present and, per column
independently, `mean` is the arithmetic mean, `max` is a member and an upper
bound of the column, and `p95` equals the linear-interpolation quantile
reference. -/
theorem analyze_system_metrics_column_stats (rows : SystemDF) (h : rows ≠ []) :
    analyze_system_metrics (some rows) = some (sysOf rows) ∧
    ((sysOf rows).cpu.mean = (rows.map (·.cpu)).sum / ((rows.map (·.cpu)).length : ℚ) ∧
     (sysOf rows).cpu.max ∈ rows.map (·.cpu) ∧
     (∀ y ∈ rows.map (·.cpu), y ≤ (sysOf rows).cpu.max) ∧
     (sysOf rows).cpu.p95 = quantileSpecRef (rows.map (·.cpu)) 0.95) ∧
    ((sysOf rows).memory.mean = (rows.map (·.memory)).sum / ((rows.map (·.memory)).length : ℚ) ∧
     (sysOf rows).memory.max ∈ rows.map (·.memory) ∧
     (∀ y ∈ rows.map (·.memory), y ≤ (sysOf rows).memory.max) ∧
     (sysOf rows).memory.p95 = quantileSpecRef (rows.map (·.memory)) 0.95) ∧
    ((sysOf rows).database_connections.mean
        = (rows.map (·.db_connections)).sum / ((rows.map (·.db_connections)).length : ℚ) ∧
     (sysOf rows).database_connections.max ∈ rows.map (·.db_connections) ∧
     (∀ y ∈ rows.map (·.db_connections), y ≤ (sysOf rows).database_connections.max) ∧
     (sysOf rows).database_connections.p95
        = quantileSpecRef (rows.map (·.db_connections)) 0.95) ∧
    ((sysOf rows).redis_connections.mean
        = (rows.map (·.redis_connections)).sum / ((rows.map (·.redis_connections)).length : ℚ) ∧
     (sysOf rows).redis_connections.max ∈ rows.map (·.redis_connections) ∧
     (∀ y ∈ rows.map (·.redis_connections), y ≤ (sysOf rows).redis_connections.max) ∧
     (sysOf rows).redis_connections.p95
        = quantileSpecRef (rows.map (·.redis_connections)) 0.95) := by
  have hne : ∀ f : ResourceRow → ℚ, rows.map f ≠ [] := by
    intro f hf
    exact h (List.map_eq_nil_iff.mp hf)
  have hempty : rows.isEmpty = false := by
    cases rows with
    | nil => exact absurd rfl h
    | cons a l => rfl
  exact ⟨by simp [analyze_system_metrics, hempty], colStats_spec _ (hne _),
    colStats_spec _ (hne _), colStats_spec _ (hne _), colStats_spec _ (hne _)⟩

/-- Witness for C5 at a concrete two-row series. -/
theorem analyze_system_metrics_column_stats_witness :
    analyze_system_metrics (some sampleRows) = some (sysOf sampleRows) ∧
    ((sysOf sampleRows).cpu.mean
        = (sampleRows.map (·.cpu)).sum / ((sampleRows.map (·.cpu)).length : ℚ) ∧
     (sysOf sampleRows).cpu.max ∈ sampleRows.map (·.cpu) ∧
     (∀ y ∈ sampleRows.map (·.cpu), y ≤ (sysOf sampleRows).cpu.max) ∧
     (sysOf sampleRows).cpu.p95 = quantileSpecRef (sampleRows.map (·.cpu)) 0.95) ∧
    ((sysOf sampleRows).memory.mean
        = (sampleRows.map (·.memory)).sum / ((sampleRows.map (·.memory)).length : ℚ) ∧
     (sysOf sampleRows).memory.max ∈ sampleRows.map (·.memory) ∧
     (∀ y ∈ sampleRows.map (·.memory), y ≤ (sysOf sampleRows).memory.max) ∧
     (sysOf sampleRows).memory.p95 = quantileSpecRef (sampleRows.map (·.memory)) 0.95) ∧
    ((sysOf sampleRows).database_connections.mean
        = (sampleRows.map (·.db_connections)).sum
            / ((sampleRows.map (·.db_connections)).length : ℚ) ∧
     (sysOf sampleRows).database_connections.max ∈ sampleRows.map (·.db_connections) ∧
     (∀ y ∈ sampleRows.map (·.db_connections),
        y ≤ (sysOf sampleRows).database_connections.max) ∧
     (sysOf sampleRows).database_connections.p95
        = quantileSpecRef (sampleRows.map (·.db_connections)) 0.95) ∧
    ((sysOf sampleRows).redis_connections.mean
        = (sampleRows.map (·.redis_connections)).sum
            / ((sampleRows.map (·.redis_connections)).length : ℚ) ∧
     (sysOf sampleRows).redis_connections.max ∈ sampleRows.map (·.redis_connections) ∧
     (∀ y ∈ sampleRows.map (·.redis_connections),
        y ≤ (sysOf sampleRows).redis_connections.max) ∧
     (sysOf sampleRows).redis_connections.p95
        = quantileSpecRef (sampleRows.map (·.redis_connections)) 0.95) :=
  analyze_system_metrics_column_stats sampleRows (by simp [sampleRows])

/-- C7: the report writer is a pure function of the summaries and the
timestamp; two runs on identical summaries differ at most in the Generated
line, which is chunk index 1. -/
theorem generate_report_deterministic_mod_timestamp (p : Option PerfAnalysis)
    (s : Option SysAnalysis) (t1 t2 : String) :
    (generate_report_chunks p s t1).take 2 =
      ["# Party Puzzle Palooza Load Test Performance Report\n\n",
       "**Generated:** " ++ t1 ++ "\n\n"] ∧
    (generate_report_chunks p s t1).drop 2 = (generate_report_chunks p s t2).drop 2 :=
  ⟨rfl, rfl⟩

/-- Witness for C7 at concrete summaries and two distinct timestamps. -/
theorem generate_report_deterministic_mod_timestamp_witness :
    (generate_report_chunks none none "A").take 2 =
      ["# Party Puzzle Palooza Load Test Performance Report\n\n",
       "**Generated:** " ++ "A" ++ "\n\n"] ∧
    (generate_report_chunks none none "A").drop 2 =
      (generate_report_chunks none none "B").drop 2 :=
  generate_report_deterministic_mod_timestamp none none "A" "B"

/-- A document whose state carries a 3.5-second test duration in nanoseconds. -/
def docDuration : K6Data :=
  { metrics := none
    state := some [("testRunDuration", 3500000000), ("maxVUs", 50)]
    otherKeys := [] }

/-- C8: the Test Duration KPI line prints the summary's `test_duration` (the
document's `state.testRunDuration`, nanoseconds) divided by 1,000,000,000,
i.e. the duration in seconds. -/
theorem report_test_duration_seconds (d : K6Data) (h : d.isEmptyDoc = false)
    (s : Option SysAnalysis) (t : String) :
    analyze_performance (some d) = some (perfOf d) ∧
    (perfOf d).test_duration = dictGet (d.state.getD []) "testRunDuration" 0 ∧
    ("- **Test Duration:** " ++ fmtFixed 1 ((perfOf d).test_duration / 1000000000) ++ "s\n")
      ∈ generate_report_chunks (some (perfOf d)) s t := by
  refine ⟨by simp [analyze_performance, h], rfl, ?_⟩
  cases s <;> simp [generate_report_chunks, perfKpiChunks]

/-- Witness for C8 at a concrete document with testRunDuration 3500000000ns. -/
theorem report_test_duration_seconds_witness :
    analyze_performance (some docDuration) = some (perfOf docDuration) ∧
    (perfOf docDuration).test_duration
      = dictGet (docDuration.state.getD []) "testRunDuration" 0 ∧
    ("- **Test Duration:** "
        ++ fmtFixed 1 ((perfOf docDuration).test_duration / 1000000000) ++ "s\n")
      ∈ generate_report_chunks (some (perfOf docDuration)) none "T" :=
  report_test_duration_seconds docDuration (by decide) none "T"

/-- C9: `load_k6_results` returns the parsed document on success; on a missing
file it reports a not-found diagnostic and returns an absent result; on a JSON
parse failure it reports an invalid-JSON diagnostic and returns an absent
result; in both failure cases the pipeline still runs to a report instead of
terminating. -/
theorem load_k6_results_error_handling (results_file : String) (o : K6LoadOutcome) :
    (∀ d, o = K6LoadOutcome.ok d → load_k6_results results_file o = (some d, [])) ∧
    (o = K6LoadOutcome.fileNotFound →
      (load_k6_results results_file o).1 = none ∧
      (load_k6_results results_file o).2
        = ["❌ Results file not found: " ++ results_file]) ∧
    (o = K6LoadOutcome.invalidJson →
      (load_k6_results results_file o).1 = none ∧
      (load_k6_results results_file o).2
        = ["❌ Invalid JSON in results file: " ++ results_file]) ∧
    ((load_k6_results results_file o).1 = none →
      ∀ df t, main_pipeline (load_k6_results results_file o).1 df t
          = generate_report_chunks none (analyze_system_metrics df) t ∧
        main_pipeline (load_k6_results results_file o).1 df t ≠ []) := by
  refine ⟨?_, ?_, ?_, ?_⟩
  · intro d hd; rw [hd]; rfl
  · intro hd; rw [hd]; exact ⟨rfl, rfl⟩
  · intro hd; rw [hd]; exact ⟨rfl, rfl⟩
  · intro hn df t
    rw [hn]
    exact ⟨rfl, by simp [main_pipeline, analyze_performance, generate_report_chunks]⟩

/-- Witness for C9 at a concrete path and the file-not-found outcome. -/
theorem load_k6_results_error_handling_witness :
    (∀ d, K6LoadOutcome.fileNotFound = K6LoadOutcome.ok d →
      load_k6_results "results.json" K6LoadOutcome.fileNotFound = (some d, [])) ∧
    (K6LoadOutcome.fileNotFound = K6LoadOutcome.fileNotFound →
      (load_k6_results "results.json" K6LoadOutcome.fileNotFound).1 = none ∧
      (load_k6_results "results.json" K6LoadOutcome.fileNotFound).2
        = ["❌ Results file not found: " ++ "results.json"]) ∧
    (K6LoadOutcome.fileNotFound = K6LoadOutcome.invalidJson →
      (load_k6_results "results.json" K6LoadOutcome.fileNotFound).1 = none ∧
      (load_k6_results "results.json" K6LoadOutcome.fileNotFound).2
        = ["❌ Invalid JSON in results file: " ++ "results.json"]) ∧
    ((load_k6_results "results.json" K6LoadOutcome.fileNotFound).1 = none →
      ∀ df t, main_pipeline (load_k6_results "results.json" K6LoadOutcome.fileNotFound).1 df t
          = generate_report_chunks none (analyze_system_metrics df) t ∧
        main_pipeline (load_k6_results "results.json" K6LoadOutcome.fileNotFound).1 df t ≠ []) :=
  load_k6_results_error_handling "results.json" K6LoadOutcome.fileNotFound

theorem sysHeader_notin_kpi (p : PerfAnalysis) :
    "\n## System Resource Analysis\n\n" ∉ perfKpiChunks p := by
  intro hmem
  simp only [perfKpiChunks, List.mem_cons, List.not_mem_nil, or_false] at hmem
  rcases hmem with h|h|h|h|h|h|h|h|h|h|h|h
  · exact absurd h (by decide)
  · exact chunk_head_ne _ _ _ _ '-' (by decide) (by decide) h
  · exact chunk_head_ne _ _ _ _ '-' (by decide) (by decide) h
  · exact chunk_head_ne _ _ _ _ '-' (by decide) (by decide) h
  · exact chunk_head_ne _ _ _ _ '-' (by decide) (by decide) h
  · exact chunk_head_ne _ _ _ _ '-' (by decide) (by decide) h
  · exact chunk_head_ne _ _ _ _ '-' (by decide) (by decide) h
  · exact chunk_head_ne _ _ _ _ '-' (by decide) (by decide) h
  · exact absurd h (by decide)
  · exact ne_ite _ _ _ _ (by decide) (by decide) h
  · exact ne_ite _ _ _ _ (by decide) (by decide) h
  · exact ne_ite _ _ _ _ (by decide) (by decide) h

theorem sysHeader_notin_rec (p : PerfAnalysis) :
    "\n## System Resource Analysis\n\n" ∉ perfRecChunks p := by
  intro hmem
  simp only [perfRecChunks, List.mem_append] at hmem
  rcases hmem with (h | h) | h <;>
    exact absurd (mem_ite_nil _ _ _ h) (by decide)

theorem sysHeader_notin_report (p : Option PerfAnalysis) (t : String) :
    "\n## System Resource Analysis\n\n" ∉ generate_report_chunks p none t := by
  cases p with
  | none =>
    intro hmem
    simp only [generate_report_chunks, List.mem_cons, List.mem_append,
      List.not_mem_nil, or_false, List.mem_singleton] at hmem
    rcases hmem with h|h|h|h|h|h|h|h|h
    · exact absurd h (by decide)
    · exact chunk_head_ne _ _ _ _ '*' (by decide) (by decide) h
    · exact absurd h (by decide)
    · exact absurd h (by decide)
    · exact absurd h (by decide)
    · exact absurd h (by decide)
    · exact absurd h (by decide)
    · exact absurd h (by decide)
    · exact absurd h (by decide)
  | some pp =>
    intro hmem
    simp only [generate_report_chunks, List.mem_cons, List.mem_append,
      List.not_mem_nil, or_false, List.mem_singleton] at hmem
    rcases hmem with h|h|h|((h|h)|h)|h|h|h|h|h|h
    · exact absurd h (by decide)
    · exact chunk_head_ne _ _ _ _ '*' (by decide) (by decide) h
    · exact absurd h (by decide)
    · exact sysHeader_notin_kpi pp h
    · exact absurd h (by decide)
    · exact sysHeader_notin_rec pp h
    · exact absurd h (by decide)
    · exact absurd h (by decide)
    · exact absurd h (by decide)
    · exact absurd h (by decide)
    · exact absurd h (by decide)
    · exact absurd h (by decide)

/-- C6 counterexample: a present zero-row resource series makes the summary
absent, yet `generate_graphs` still draws all four resource panels (its guard
is only `system_df is not None`), so the chart panels are not omitted. -/
theorem graphs_empty_series_panels_drawn :
    analyze_system_metrics (some ([] : SystemDF)) = none ∧
    (generate_graphs_panels none (some ([] : SystemDF))).cpu = true ∧
    (generate_graphs_panels none (some ([] : SystemDF))).memory = true ∧
    (generate_graphs_panels none (some ([] : SystemDF))).db_connections = true ∧
    (generate_graphs_panels none (some ([] : SystemDF))).redis_connections = true :=
  ⟨rfl, rfl, rfl, rfl, rfl⟩

/-- C6 (amended): the resource summary is absent exactly for an absent or
zero-row series; whenever the series is absent or zero-row the System Resource
Analysis section header never appears in the report; the four resource chart
panels are omitted for an absent series (but a present zero-row series still
gets them drawn, per the counterexample). -/
theorem resource_absent_summary_and_sections (df : Option SystemDF)
    (p : Option PerfAnalysis) (t : String) (k6 : Option K6Data) :
    (analyze_system_metrics df = none ↔ df = none ∨ df = some []) ∧
    (df = none ∨ df = some [] →
      "\n## System Resource Analysis\n\n"
        ∉ generate_report_chunks p (analyze_system_metrics df) t) ∧
    ((generate_graphs_panels k6 none).cpu = false ∧
     (generate_graphs_panels k6 none).db_connections = false ∧
     (generate_graphs_panels k6 none).redis_connections = false ∧
     (generate_graphs_panels k6 none).memory = false) := by
  have hiff : analyze_system_metrics df = none ↔ df = none ∨ df = some [] := by
    cases df with
    | none => simp [analyze_system_metrics]
    | some rows =>
      cases rows with
      | nil => simp [analyze_system_metrics]
      | cons a l => simp [analyze_system_metrics]
  refine ⟨hiff, ?_, rfl, rfl, rfl, rfl⟩
  intro hd
  rw [hiff.mpr hd]
  exact sysHeader_notin_report p t

/-- Witness for C6 (amended) at a concrete zero-row series. -/
theorem resource_absent_summary_and_sections_witness :
    (analyze_system_metrics (some ([] : SystemDF)) = none ↔
      (some ([] : SystemDF) : Option SystemDF) = none ∨
        (some ([] : SystemDF) : Option SystemDF) = some []) ∧
    ((some ([] : SystemDF) : Option SystemDF) = none ∨
        (some ([] : SystemDF) : Option SystemDF) = some [] →
      "\n## System Resource Analysis\n\n"
        ∉ generate_report_chunks none (analyze_system_metrics (some ([] : SystemDF))) "T") ∧
    ((generate_graphs_panels none none).cpu = false ∧
     (generate_graphs_panels none none).db_connections = false ∧
     (generate_graphs_panels none none).redis_connections = false ∧
     (generate_graphs_panels none none).memory = false) :=
  resource_absent_summary_and_sections (some ([] : SystemDF)) none "T" none

theorem fmtFixed2_zero : fmtFixed 2 (0 : ℚ) = "0.00" := by
  norm_num [fmtFixed, roundHalfEven, natDigitsPad] <;> decide

theorem fmtFixed1_zero : fmtFixed 1 (0 : ℚ) = "0.0" := by
  norm_num [fmtFixed, roundHalfEven, natDigitsPad] <;> decide

theorem fmtComma_zero : fmtComma (0 : ℚ) = "0" := by
  norm_num [fmtComma, commaGroup, commaGroupAux] <;> decide

theorem pyStr_zero : pyStr (0 : ℚ) = "0" := by
  norm_num [pyStr] <;> decide

theorem fmtPercent2_zero : fmtPercent2 (0 : ℚ) = "0.00%" := by
  norm_num [fmtPercent2, fmtFixed, roundHalfEven, natDigitsPad] <;> decide

theorem fmtFixed2_320 : fmtFixed 2 (320 : ℚ) = "320.00" := by
  norm_num [fmtFixed, roundHalfEven, natDigitsPad] <;> decide

theorem fmtFixed2_300 : fmtFixed 2 (300 : ℚ) = "300.00" := by
  norm_num [fmtFixed, roundHalfEven, natDigitsPad] <;> decide

theorem fmtFixed2_100 : fmtFixed 2 (100 : ℚ) = "100.00" := by
  norm_num [fmtFixed, roundHalfEven, natDigitsPad] <;> decide

theorem fmtPercent2_002 : fmtPercent2 ((1 : ℚ) / 50) = "2.00%" := by
  norm_num [fmtPercent2, fmtFixed, roundHalfEven, natDigitsPad] <;> decide

theorem fmtPercent2_005 : fmtPercent2 ((1 : ℚ) / 20) = "5.00%" := by
  norm_num [fmtPercent2, fmtFixed, roundHalfEven, natDigitsPad] <;> decide

/-- The performance summary of the end-to-end scenario: HTTP p95 = 320 and
failure rate 1/50 = 0.02, all other statistics zero. -/
def perfHttp320 : PerfAnalysis :=
  { http_requests := { total := 0, rate := 0, p95 := 320, p99 := 0, failed_rate := 1 / 50 }
    websocket := { latency_p95 := 0, messages_total := 0 }
    business_metrics :=
      { room_creation_success := 0, game_join_success := 0, question_flag_success := 0 }
    test_duration := 0
    max_vus := 0 }

theorem chunks_http320_eval : generate_report_chunks (some perfHttp320) none "T" =
    ["# Party Puzzle Palooza Load Test Performance Report\n\n",
     "**Generated:** " ++ "T" ++ "\n\n",
     "## Executive Summary\n\n",
     "### Key Performance Indicators\n\n",
     "- **HTTP Response Time (p95):** 320.00ms\n",
     "- **Error Rate:** 2.00%\n",
     "- **WebSocket Latency (p95):** 0.00ms\n",
     "- **Total Requests:** 0\n",
     "- **Request Rate:** 0.00 req/s\n",
     "- **Test Duration:** 0.0s\n",
     "- **Max Virtual Users:** 0\n\n",
     "### Performance Assessment\n\n",
     "❌ **HTTP Response Time:** Exceeds 300ms threshold\n",
     "✅ **Error Rate:** Within acceptable limits\n",
     "✅ **WebSocket Latency:** Within acceptable limits\n",
     "## Recommendations\n\n",
     "- **Optimize HTTP endpoints** that exceed 300ms response time\n",
     "- **Implement caching** for frequently accessed data\n",
     "- **Review database queries** for optimization opportunities\n",
     "\n## Next Steps\n\n",
     "1. **Address critical performance issues** identified above\n",
     "2. **Implement recommended optimizations**\n",
     "3. **Re-run load tests** after optimizations\n",
     "4. **Monitor production performance** continuously\n",
     "5. **Set up automated performance testing** in CI/CD\n"] := by
  norm_num [generate_report_chunks, perfKpiChunks, perfRecChunks, perfHttp320,
    fmtFixed2_320, fmtPercent2_002, fmtFixed2_zero, fmtFixed1_zero,
    fmtComma_zero, pyStr_zero]
  decide

/-- C4: for a summary with HTTP p95 = 320 and failure rate 0.02, the report
has the failed HTTP assessment line and the passing error-rate line, and its
Recommendations hold the HTTP-optimization bullets but none of the
error-investigation bullets. -/
theorem report_http320_err2_scenario :
    "❌ **HTTP Response Time:** Exceeds 300ms threshold\n"
        ∈ generate_report_chunks (some perfHttp320) none "T" ∧
    "✅ **Error Rate:** Within acceptable limits\n"
        ∈ generate_report_chunks (some perfHttp320) none "T" ∧
    "- **Optimize HTTP endpoints** that exceed 300ms response time\n"
        ∈ generate_report_chunks (some perfHttp320) none "T" ∧
    "- **Implement caching** for frequently accessed data\n"
        ∈ generate_report_chunks (some perfHttp320) none "T" ∧
    "- **Review database queries** for optimization opportunities\n"
        ∈ generate_report_chunks (some perfHttp320) none "T" ∧
    "- **Investigate error patterns** and implement error handling\n"
        ∉ generate_report_chunks (some perfHttp320) none "T" ∧
    "- **Review rate limiting** configuration\n"
        ∉ generate_report_chunks (some perfHttp320) none "T" ∧
    "- **Check external service dependencies**\n"
        ∉ generate_report_chunks (some perfHttp320) none "T" := by
  rw [chunks_http320_eval]
  refine ⟨?_, ?_, ?_, ?_, ?_, ?_, ?_, ?_⟩ <;> decide

/-- A summary sitting exactly on the HTTP p95 threshold of 300ms. -/
def perfHttpAt300 : PerfAnalysis :=
  { http_requests := { total := 0, rate := 0, p95 := 300, p99 := 0, failed_rate := 0 }
    websocket := { latency_p95 := 0, messages_total := 0 }
    business_metrics :=
      { room_creation_success := 0, game_join_success := 0, question_flag_success := 0 }
    test_duration := 0
    max_vus := 0 }

/-- A summary sitting exactly on the 5% error-rate threshold. -/
def perfErrAt5 : PerfAnalysis :=
  { http_requests := { total := 0, rate := 0, p95 := 0, p99 := 0, failed_rate := 1 / 20 }
    websocket := { latency_p95 := 0, messages_total := 0 }
    business_metrics :=
      { room_creation_success := 0, game_join_success := 0, question_flag_success := 0 }
    test_duration := 0
    max_vus := 0 }

/-- A summary sitting exactly on the 100ms WebSocket latency threshold. -/
def perfWsAt100 : PerfAnalysis :=
  { http_requests := { total := 0, rate := 0, p95 := 0, p99 := 0, failed_rate := 0 }
    websocket := { latency_p95 := 100, messages_total := 0 }
    business_metrics :=
      { room_creation_success := 0, game_join_success := 0, question_flag_success := 0 }
    test_duration := 0
    max_vus := 0 }

theorem chunks_httpAt300_eval : generate_report_chunks (some perfHttpAt300) none "T" =
    ["# Party Puzzle Palooza Load Test Performance Report\n\n",
     "**Generated:** " ++ "T" ++ "\n\n",
     "## Executive Summary\n\n",
     "### Key Performance Indicators\n\n",
     "- **HTTP Response Time (p95):** 300.00ms\n",
     "- **Error Rate:** 0.00%\n",
     "- **WebSocket Latency (p95):** 0.00ms\n",
     "- **Total Requests:** 0\n",
     "- **Request Rate:** 0.00 req/s\n",
     "- **Test Duration:** 0.0s\n",
     "- **Max Virtual Users:** 0\n\n",
     "### Performance Assessment\n\n",
     "❌ **HTTP Response Time:** Exceeds 300ms threshold\n",
     "✅ **Error Rate:** Within acceptable limits\n",
     "✅ **WebSocket Latency:** Within acceptable limits\n",
     "## Recommendations\n\n",
     "\n## Next Steps\n\n",
     "1. **Address critical performance issues** identified above\n",
     "2. **Implement recommended optimizations**\n",
     "3. **Re-run load tests** after optimizations\n",
     "4. **Monitor production performance** continuously\n",
     "5. **Set up automated performance testing** in CI/CD\n"] := by
  norm_num [generate_report_chunks, perfKpiChunks, perfRecChunks, perfHttpAt300,
    fmtFixed2_300, fmtPercent2_zero, fmtFixed2_zero, fmtFixed1_zero,
    fmtComma_zero, pyStr_zero]
  decide

theorem chunks_errAt5_eval : generate_report_chunks (some perfErrAt5) none "T" =
    ["# Party Puzzle Palooza Load Test Performance Report\n\n",
     "**Generated:** " ++ "T" ++ "\n\n",
     "## Executive Summary\n\n",
     "### Key Performance Indicators\n\n",
     "- **HTTP Response Time (p95):** 0.00ms\n",
     "- **Error Rate:** 5.00%\n",
     "- **WebSocket Latency (p95):** 0.00ms\n",
     "- **Total Requests:** 0\n",
     "- **Request Rate:** 0.00 req/s\n",
     "- **Test Duration:** 0.0s\n",
     "- **Max Virtual Users:** 0\n\n",
     "### Performance Assessment\n\n",
     "✅ **HTTP Response Time:** Within acceptable limits\n",
     "❌ **Error Rate:** Exceeds 5% threshold\n",
     "✅ **WebSocket Latency:** Within acceptable limits\n",
     "## Recommendations\n\n",
     "\n## Next Steps\n\n",
     "1. **Address critical performance issues** identified above\n",
     "2. **Implement recommended optimizations**\n",
     "3. **Re-run load tests** after optimizations\n",
     "4. **Monitor production performance** continuously\n",
     "5. **Set up automated performance testing** in CI/CD\n"] := by
  norm_num [generate_report_chunks, perfKpiChunks, perfRecChunks, perfErrAt5,
    fmtPercent2_005, fmtFixed2_zero, fmtFixed1_zero,
    fmtComma_zero, pyStr_zero]
  decide

theorem chunks_wsAt100_eval : generate_report_chunks (some perfWsAt100) none "T" =
    ["# Party Puzzle Palooza Load Test Performance Report\n\n",
     "**Generated:** " ++ "T" ++ "\n\n",
     "## Executive Summary\n\n",
     "### Key Performance Indicators\n\n",
     "- **HTTP Response Time (p95):** 0.00ms\n",
     "- **Error Rate:** 0.00%\n",
     "- **WebSocket Latency (p95):** 100.00ms\n",
     "- **Total Requests:** 0\n",
     "- **Request Rate:** 0.00 req/s\n",
     "- **Test Duration:** 0.0s\n",
     "- **Max Virtual Users:** 0\n\n",
     "### Performance Assessment\n\n",
     "✅ **HTTP Response Time:** Within acceptable limits\n",
     "✅ **Error Rate:** Within acceptable limits\n",
     "❌ **WebSocket Latency:** Exceeds 100ms threshold\n",
     "## Recommendations\n\n",
     "\n## Next Steps\n\n",
     "1. **Address critical performance issues** identified above\n",
     "2. **Implement recommended optimizations**\n",
     "3. **Re-run load tests** after optimizations\n",
     "4. **Monitor production performance** continuously\n",
     "5. **Set up automated performance testing** in CI/CD\n"] := by
  norm_num [generate_report_chunks, perfKpiChunks, perfRecChunks, perfWsAt100,
    fmtFixed2_100, fmtPercent2_zero, fmtFixed2_zero, fmtFixed1_zero,
    fmtComma_zero, pyStr_zero]
  decide

/-- C10: when a metric sits exactly on its threshold, the assessment line is
the failed (❌) one, since passing needs strictly less, yet the matching
Recommendations bullet block is absent, since it needs strictly greater; this
holds for all three performance thresholds. -/
theorem threshold_boundary_asymmetry :
    ("❌ **HTTP Response Time:** Exceeds 300ms threshold\n"
        ∈ generate_report_chunks (some perfHttpAt300) none "T" ∧
     "- **Optimize HTTP endpoints** that exceed 300ms response time\n"
        ∉ generate_report_chunks (some perfHttpAt300) none "T" ∧
     "- **Implement caching** for frequently accessed data\n"
        ∉ generate_report_chunks (some perfHttpAt300) none "T" ∧
     "- **Review database queries** for optimization opportunities\n"
        ∉ generate_report_chunks (some perfHttpAt300) none "T") ∧
    ("❌ **Error Rate:** Exceeds 5% threshold\n"
        ∈ generate_report_chunks (some perfErrAt5) none "T" ∧
     "- **Investigate error patterns** and implement error handling\n"
        ∉ generate_report_chunks (some perfErrAt5) none "T" ∧
     "- **Review rate limiting** configuration\n"
        ∉ generate_report_chunks (some perfErrAt5) none "T" ∧
     "- **Check external service dependencies**\n"
        ∉ generate_report_chunks (some perfErrAt5) none "T") ∧
    ("❌ **WebSocket Latency:** Exceeds 100ms threshold\n"
        ∈ generate_report_chunks (some perfWsAt100) none "T" ∧
     "- **Optimize WebSocket message processing**\n"
        ∉ generate_report_chunks (some perfWsAt100) none "T" ∧
     "- **Review Redis pub/sub performance**\n"
        ∉ generate_report_chunks (some perfWsAt100) none "T" ∧
     "- **Consider WebSocket connection pooling**\n"
        ∉ generate_report_chunks (some perfWsAt100) none "T") := by
  rw [chunks_httpAt300_eval, chunks_errAt5_eval, chunks_wsAt100_eval]
  refine ⟨⟨?_, ?_, ?_, ?_⟩, ⟨?_, ?_, ?_, ?_⟩, ⟨?_, ?_, ?_, ?_⟩⟩ <;> decide
